import Mathlib

/-!
Shallow embedding of the New England airports dashboard (final.py).

The script is a single linear pandas pipeline:
load → clean/State mapping → elevation coercion → widget-driven filters →
sort → derived category column → group-by-type counts → rendering.

A DataFrame is embedded as a `List` of `Row`s.  Nullable columns are
`Option`-valued (pandas NaN ↦ `none`); float comparisons against NaN are
`false`, which `optGe` reproduces.  The elevation column starts out as a raw
CSV cell (`RawElev`) and becomes `Option ℚ` after the `astype(float)` step;
`Row` is therefore parametric in the elevation cell type.
-/

namespace Airports

/-- A raw elevation cell as read from the CSV: a numeric value, a missing
value (NaN), or a malformed string that `astype(float)` cannot parse. -/
inductive RawElev where
  | num (q : ℚ)
  | missing
  | malformed (s : String)
deriving DecidableEq

/-- One row of the airports table.  Fields carry the CSV column names used by
final.py; `State` is the derived display-name column (absent, i.e. `none`,
until the loader assigns it). -/
structure Row (ε : Type) where
  name : Option String
  municipality : Option String
  type : String
  iso_region : Option String
  latitude_deg : Option ℚ
  longitude_deg : Option ℚ
  elevation_ft : ε
  scheduled_service : String
  State : Option String := none
deriving DecidableEq

/-- A row after the elevation column has been coerced to float. -/
abbrev AirportRecord := Row (Option ℚ)

/-- `state_names` dict of final.py: the fixed region-code → display-name
table for the six supported New England codes. -/
def state_names : List (String × String) :=
  [("US-CT", "Connecticut"), ("US-ME", "Maine"), ("US-MA", "Massachusetts"),
   ("US-NH", "New Hampshire"), ("US-RI", "Rhode Island"), ("US-VT", "Vermont")]

/-- `df.dropna(subset=['latitude_deg', 'longitude_deg', 'iso_region'])`:
drop rows missing any of the three required geographic fields. -/
def dropnaGeo {ε : Type} (rows : List (Row ε)) : List (Row ε) :=
  rows.filter fun r =>
    r.latitude_deg.isSome && r.longitude_deg.isSome && r.iso_region.isSome

/-- `df['State'] = df['iso_region'].map(state_names)`: Series.map with a dict
sends keys present in the dict to their value and everything else to NaN. -/
def mapState {ε : Type} (rows : List (Row ε)) : List (Row ε) :=
  rows.map fun r => { r with State := r.iso_region.bind fun c => state_names.lookup c }

/-- The loader (final.py lines 8–27): dropna on the geographic columns, map
region codes to state names, keep only rows whose `State` is non-null. -/
def load {ε : Type} (rows : List (Row ε)) : List (Row ε) :=
  (mapState (dropnaGeo rows)).filter fun r => r.State.isSome

/-- `astype(float)` on a single elevation cell: numbers convert, NaN stays
NaN, a malformed string raises (`none` = exception). -/
def astypeFloat : RawElev → Option (Option ℚ)
  | RawElev.num q => some (some q)
  | RawElev.missing => some none
  | RawElev.malformed _ => none

/-- Rebuild a row with a new elevation cell (the only column `astype`
replaces). -/
def setElev {ε ε' : Type} (r : Row ε) (e : ε') : Row ε' :=
  { name := r.name, municipality := r.municipality, type := r.type,
    iso_region := r.iso_region, latitude_deg := r.latitude_deg,
    longitude_deg := r.longitude_deg, elevation_ft := e,
    scheduled_service := r.scheduled_service, State := r.State }

/-- `df['elevation_ft'].astype(float)` over the whole column: succeeds with
the converted column only if every cell converts; a single malformed cell
makes the whole call raise (`none`), producing no partial result. -/
def seriesAstype : List (Row RawElev) → Option (List AirportRecord)
  | [] => some []
  | r :: rs =>
    match astypeFloat r.elevation_ft, seriesAstype rs with
    | some e, some rest => some (setElev r e :: rest)
    | _, _ => none

/-- The try/except block of final.py lines 41–44.  On success the converted
frame replaces the column and no error is shown; on failure `st.error` is
called once and the frame is left exactly as it was (the exception is raised
before the column assignment happens).  The second component counts
`st.error` calls; the script then continues either way. -/
def coerce_elevation (df : List (Row RawElev)) :
    (List (Row RawElev) ⊕ List AirportRecord) × Nat :=
  match seriesAstype df with
  | some converted => (Sum.inr converted, 0)
  | none => (Sum.inl df, 1)

/-- `filter_scheduled` of final.py (PY1): keep rows with
`scheduled_service == 'yes'` when `scheduled` is set, otherwise return the
data unchanged.  The second parameter defaults to `True` as in the source. -/
def filter_scheduled {ε : Type} (data : List (Row ε)) (scheduled : Bool := true) :
    List (Row ε) :=
  if scheduled then data.filter fun r => r.scheduled_service == "yes" else data

/-- A pandas comparison `column >= threshold` on a nullable float column:
NaN compares false. -/
def optGe (x : Option ℚ) (y : ℚ) : Bool :=
  match x with
  | some v => decide (y ≤ v)
  | none => false

/-- The filter stage (final.py lines 67–80) building `filtered` from the base
frame: state equality, the scheduled filter, the elevation threshold, type
membership in the multiselect, then a defensive dropna on coordinates. -/
def filteredView (df : List AirportRecord) (state : String) (show_scheduled : Bool)
    (min_elevation : ℚ) (airport_types : List String) : List AirportRecord :=
  let f1 := df.filter fun r => r.State == some state
  let f2 := filter_scheduled f1 show_scheduled
  let f3 := f2.filter fun r => optGe r.elevation_ft min_elevation
  let f4 := f3.filter fun r => airport_types.contains r.type
  f4.filter fun r => r.latitude_deg.isSome && r.longitude_deg.isSome

/-- `filtered_all = filter_scheduled(df)` (final.py line 71): the second
filtered view, built from the base frame with the `scheduled` parameter left
at its default. -/
def filtered_all (df : List AirportRecord) : List AirportRecord :=
  filter_scheduled df

/-- Worker for `unique`: keep each value the first time it appears, skipping
values already seen. -/
def uniqueAux : List String → List String → List String
  | _, [] => []
  | seen, x :: xs =>
    if seen.contains x then uniqueAux seen xs else x :: uniqueAux (x :: seen) xs

/-- `df['type'].unique()` (final.py line 64): the distinct values of the
`type` column of the BASE frame, in order of first appearance; these are the
options handed to the multiselect widget. -/
def unique (l : List String) : List String := uniqueAux [] l

/-- The option list of the type multiselect (final.py line 64), drawn from
the base frame `df`. -/
def airport_types_options (df : List AirportRecord) : List String :=
  unique (df.map fun r => r.type)

/-- `elevation_stats` input column: `data['elevation_ft']` with pandas
aggregations skipping NaN cells. -/
def elevCol (data : List AirportRecord) : List ℚ :=
  data.filterMap fun r => r.elevation_ft

/-- `Series.min()` with skipna: NaN (`none`) on an empty column. -/
def seriesMin : List ℚ → Option ℚ
  | [] => none
  | x :: xs => some (xs.foldl min x)

/-- `Series.max()` with skipna: NaN (`none`) on an empty column. -/
def seriesMax : List ℚ → Option ℚ
  | [] => none
  | x :: xs => some (xs.foldl max x)

/-- `Series.mean()` with skipna: NaN (`none`) on an empty column. -/
def seriesMean (l : List ℚ) : Option ℚ :=
  match l with
  | [] => none
  | _ => some (l.sum / (l.length : ℚ))

/-- `elevation_stats` of final.py (PY2): the (min, max, mean) triple of the
`elevation_ft` column.  A `none` component is pandas' NaN result on an
all-NaN or empty column. -/
def elevation_stats (data : List AirportRecord) :
    Option ℚ × Option ℚ × Option ℚ :=
  (seriesMin (elevCol data), seriesMax (elevCol data), seriesMean (elevCol data))

/-- `elevation_level` of final.py (DA4): the derived Elevation Category.
Both comparisons are pandas float comparisons, false on NaN. -/
def elevation_level (row : AirportRecord) : String :=
  if optGe row.elevation_ft 2000 then "High"
  else if optGe row.elevation_ft 1000 then "Medium"
  else "Low"

/-- Numeric rank of a category, for stating monotonicity. -/
def levelRank : String → Nat
  | "Medium" => 1
  | "High" => 2
  | _ => 0

/-- Code-point lexicographic strict order on character lists, as Python
compares strings. -/
def strLtAux : List Char → List Char → Bool
  | [], [] => false
  | [], _ :: _ => true
  | _ :: _, [] => false
  | a :: as, b :: bs =>
    if a.toNat < b.toNat then true
    else if b.toNat < a.toNat then false
    else strLtAux as bs

/-- Non-strict code-point lexicographic order on strings (Python's string
order, by which pandas sorts group keys). -/
def strLe (a b : String) : Bool := a == b || strLtAux a.data b.data

/-- `filtered.groupby('type').size()` (DA5): one (type, count) pair per
distinct type value present, keys in sorted order as pandas groupby emits
them; absent types get no entry. -/
def type_counts (data : List AirportRecord) : List (String × Nat) :=
  (List.insertionSort (fun a b => strLe a b = true)
      (unique (data.map fun r => r.type))).map
    fun t => (t, data.countP fun r => r.type == t)

/-- The descending elevation key order used by
`sort_values(by='elevation_ft', ascending=False)`: larger elevations first,
NaN rows last (pandas default `na_position='last'`). -/
def elevDescLe (a b : AirportRecord) : Bool :=
  match a.elevation_ft, b.elevation_ft with
  | some x, some y => decide (y ≤ x)
  | some _, none => true
  | none, some _ => false
  | none, none => true

/-- The contract pandas documents for `sort_values` with the default
`kind='quicksort'` (final.py line 83): the output is SOME permutation of the
input that is ordered by the key.  The default algorithm is documented as not
stable, so nothing beyond this contract — in particular no tie order — is
guaranteed. -/
def IsSortValuesOutput (input output : List AirportRecord) : Prop :=
  output.Perm input ∧ output.Pairwise fun a b => elevDescLe a b = true

/-- Which of the render blocks of final.py lines 86–193 actually emit output,
as a function of the current `filtered` frame.  The stats writes (86–89) and
the bar chart (110–111) are unconditional; the pie, line and box charts are
inside `if not filtered.empty`; the map is guarded the same way and is the
only block with an `else` branch showing the "No airports match" message. -/
structure Display where
  statsShown : Bool
  barChartShown : Bool
  pieShown : Bool
  lineShown : Bool
  boxShown : Bool
  mapShown : Bool
  emptyMessageShown : Bool
deriving DecidableEq

/-- The rendering structure of final.py lines 86–193 on a given filtered
frame. -/
def render (filtered : List AirportRecord) : Display :=
  { statsShown := true
    barChartShown := true
    pieShown := !filtered.isEmpty
    lineShown := !filtered.isEmpty
    boxShown := !filtered.isEmpty
    mapShown := !filtered.isEmpty
    emptyMessageShown := filtered.isEmpty }

/-! Concrete sample data used by witnesses and counterexamples. -/

/-- A concrete post-coercion record with the given name, type, scheduled
flag and elevation. -/
def mkRec (nm ty sched : String) (e : Option ℚ) : AirportRecord :=
  { name := some nm, municipality := some "Boston", type := ty,
    iso_region := some "US-MA", latitude_deg := some 42,
    longitude_deg := some (-71), elevation_ft := e,
    scheduled_service := sched, State := some "Massachusetts" }

/-- A small concrete base frame. -/
def dfSample : List AirportRecord :=
  [mkRec "Alpha Field" "small_airport" "yes" (some 1200),
   mkRec "Beta Heliport" "heliport" "no" (some 300)]

/-- Two records tied on elevation, distinguishable by name. -/
def tieRowA : AirportRecord := mkRec "A" "small_airport" "yes" (some 1000)

/-- Second record of the elevation tie. -/
def tieRowB : AirportRecord := mkRec "B" "small_airport" "yes" (some 1000)

/-- A record whose elevation cell is NaN. -/
def noElevRow : AirportRecord := mkRec "NoElev" "seaplane_base" "no" none

/-- A non-scheduled record whose type appears nowhere else. -/
def heliRow : AirportRecord := mkRec "Heli" "heliport" "no" (some 480)

/-- A concrete raw row with the given region, coordinates and elevation
cell. -/
def rawRow (region : Option String) (lat lon : Option ℚ) (e : RawElev) :
    Row RawElev :=
  { name := some "X", municipality := none, type := "small_airport",
    iso_region := region, latitude_deg := lat, longitude_deg := lon,
    elevation_ft := e, scheduled_service := "no", State := none }

/-- A concrete raw frame: one good New England row, one unsupported-region
row, one row with no region, one row missing a coordinate. -/
def rawRows : List (Row RawElev) :=
  [rawRow (some "US-ME") (some 44) (some (-69)) (RawElev.num 100),
   rawRow (some "FR-75") (some 48) (some 2) (RawElev.num 35),
   rawRow none (some 1) (some 2) RawElev.missing,
   rawRow (some "US-VT") none (some 3) RawElev.missing]

/-- The single row of `rawRows` that survives the loader, with its `State`
column filled in. -/
def loadedME : Row RawElev :=
  { rawRow (some "US-ME") (some 44) (some (-69)) (RawElev.num 100) with
    State := some "Maine" }

/-- A raw frame with two malformed elevation cells. -/
def rawBad : List (Row RawElev) :=
  [rawRow (some "US-ME") (some 44) (some (-69)) (RawElev.malformed "abc"),
   rawRow (some "US-VT") (some 44) (some (-72)) (RawElev.malformed "12x"),
   rawRow (some "US-NH") (some 43) (some (-71)) (RawElev.num 5)]

/-! ## Helper lemmas -/

/-- Unfolding equation for `uniqueAux` on a cons cell. -/
theorem uniqueAux_cons (seen : List String) (x : String) (xs : List String) :
    uniqueAux seen (x :: xs) =
      if seen.contains x then uniqueAux seen xs
      else x :: uniqueAux (x :: seen) xs := rfl

/-- Membership in `uniqueAux seen l`: the elements of `l` not already seen. -/
theorem mem_uniqueAux (a : String) (seen l : List String) :
    a ∈ uniqueAux seen l ↔ a ∈ l ∧ a ∉ seen := by
  induction l generalizing seen with
  | nil => simp [uniqueAux]
  | cons x xs ih =>
    rw [uniqueAux_cons]
    by_cases hxs : x ∈ seen
    · rw [if_pos (by simpa using hxs), ih, List.mem_cons]
      constructor
      · exact fun h => ⟨Or.inr h.1, h.2⟩
      · rintro ⟨h1 | h1, h2⟩
        · exact absurd (h1 ▸ hxs) h2
        · exact ⟨h1, h2⟩
    · rw [if_neg (by simpa using hxs), List.mem_cons, ih]
      simp only [List.mem_cons, not_or]
      constructor
      · rintro (h1 | ⟨h1, h2, h3⟩)
        · exact ⟨Or.inl h1, h1 ▸ hxs⟩
        · exact ⟨Or.inr h1, h3⟩
      · rintro ⟨h1 | h1, h2⟩
        · exact Or.inl h1
        · by_cases hax : a = x
          · exact Or.inl hax
          · exact Or.inr ⟨h1, hax, h2⟩

/-- `uniqueAux` never repeats a value. -/
theorem nodup_uniqueAux (seen l : List String) : (uniqueAux seen l).Nodup := by
  induction l generalizing seen with
  | nil => simp [uniqueAux]
  | cons x xs ih =>
    rw [uniqueAux_cons]
    by_cases hxs : x ∈ seen
    · rw [if_pos (by simpa using hxs)]
      exact ih seen
    · rw [if_neg (by simpa using hxs)]
      refine List.nodup_cons.mpr ⟨fun hc => ?_, ih (x :: seen)⟩
      exact ((mem_uniqueAux x (x :: seen) xs).mp hc).2 (List.mem_cons_self x seen)

/-- Membership in `unique` is membership in the original column. -/
theorem mem_unique (a : String) (l : List String) : a ∈ unique l ↔ a ∈ l := by
  simp [unique, mem_uniqueAux]

/-- `unique` produces no duplicates. -/
theorem nodup_unique (l : List String) : (unique l).Nodup :=
  nodup_uniqueAux [] l

/-- `filter_scheduled` only ever drops rows. -/
theorem filter_scheduled_sublist {ε : Type} (l : List (Row ε)) (b : Bool) :
    (filter_scheduled l b).Sublist l := by
  cases b
  · exact List.Sublist.refl l
  · exact List.filter_sublist l

/-- A row surviving `filter_scheduled` was in the input, and is scheduled
when the flag was set. -/
theorem mem_filter_scheduled {ε : Type} {r : Row ε} {l : List (Row ε)} {b : Bool}
    (h : r ∈ filter_scheduled l b) :
    r ∈ l ∧ (b = true → r.scheduled_service = "yes") := by
  cases b
  · exact ⟨h, by simp⟩
  · have := List.mem_filter.mp h
    exact ⟨this.1, fun _ => by simpa using this.2⟩

/-- A successful association-list lookup means the key is among the stored
keys. -/
theorem lookup_isSome_mem {α β : Type} [BEq α] [LawfulBEq α]
    {l : List (α × β)} {a : α} (h : (l.lookup a).isSome = true) :
    a ∈ l.map Prod.fst := by
  induction l with
  | nil => simp [List.lookup] at h
  | cons p ps ih =>
    by_cases hk : a == p.1
    · simp [beq_iff_eq.mp hk]
    · rcases p with ⟨k, v⟩
      simp only [List.lookup, hk] at h
      simp only [List.map_cons, List.mem_cons]
      exact Or.inr (ih (by simpa using h))

/-- A left fold with `min` never exceeds its initial value. -/
theorem foldl_min_le_init (xs : List ℚ) (a : ℚ) : xs.foldl min a ≤ a := by
  induction xs generalizing a with
  | nil => exact le_refl a
  | cons y ys ih =>
    show ys.foldl min (min a y) ≤ a
    exact le_trans (ih (min a y)) (min_le_left a y)

/-- A left fold with `max` is at least its initial value. -/
theorem foldl_max_ge_init (xs : List ℚ) (a : ℚ) : a ≤ xs.foldl max a := by
  induction xs generalizing a with
  | nil => exact le_refl a
  | cons y ys ih =>
    show a ≤ ys.foldl max (max a y)
    exact le_trans (le_max_left a y) (ih (max a y))

/-- The fold-min of a column, multiplied by its length, bounds the sum from
below. -/
theorem foldl_min_mul_le_sum (xs : List ℚ) (a : ℚ) :
    ((xs.length : ℚ) + 1) * xs.foldl min a ≤ a + xs.sum := by
  induction xs generalizing a with
  | nil => simp
  | cons y ys ih =>
    have h1 := ih (min a y)
    have h2 : ys.foldl min (min a y) ≤ min a y := foldl_min_le_init ys (min a y)
    have hxa : min a y ≤ a := min_le_left a y
    have hxy : min a y ≤ y := min_le_right a y
    simp only [List.foldl_cons, List.sum_cons, List.length_cons]
    push_cast
    have hstep : ((ys.length : ℚ) + 1 + 1) * ys.foldl min (min a y)
        = ((ys.length : ℚ) + 1) * ys.foldl min (min a y) + ys.foldl min (min a y) := by
      ring
    linarith [h1, h2, hxa, hxy, hstep]

/-- The fold-max of a column, multiplied by its length, bounds the sum from
above. -/
theorem sum_le_foldl_max_mul (xs : List ℚ) (a : ℚ) :
    a + xs.sum ≤ ((xs.length : ℚ) + 1) * xs.foldl max a := by
  induction xs generalizing a with
  | nil => simp
  | cons y ys ih =>
    have h1 := ih (max a y)
    have h2 : max a y ≤ ys.foldl max (max a y) := foldl_max_ge_init ys (max a y)
    have hxa : a ≤ max a y := le_max_left a y
    have hxy : y ≤ max a y := le_max_right a y
    simp only [List.foldl_cons, List.sum_cons, List.length_cons]
    push_cast
    have hstep : ((ys.length : ℚ) + 1 + 1) * ys.foldl max (max a y)
        = ((ys.length : ℚ) + 1) * ys.foldl max (max a y) + ys.foldl max (max a y) := by
      ring
    linarith [h1, h2, hxa, hxy, hstep]

/-- The column minimum is at most the column mean. -/
theorem nonempty_min_le_mean (x : ℚ) (xs : List ℚ) :
    xs.foldl min x ≤ (x :: xs).sum / (((x :: xs).length : ℕ) : ℚ) := by
  rw [le_div_iff₀ (by exact_mod_cast Nat.succ_pos xs.length)]
  have h := foldl_min_mul_le_sum xs x
  simp only [List.sum_cons, List.length_cons]
  push_cast
  linarith [h]

/-- The column mean is at most the column maximum. -/
theorem nonempty_mean_le_max (x : ℚ) (xs : List ℚ) :
    (x :: xs).sum / (((x :: xs).length : ℕ) : ℚ) ≤ xs.foldl max x := by
  rw [div_le_iff₀ (by exact_mod_cast Nat.succ_pos xs.length)]
  have h := sum_le_foldl_max_mul xs x
  simp only [List.sum_cons, List.length_cons]
  push_cast
  linarith [h]

/-- Pointwise sums split over a map. -/
theorem sum_map_add_pointwise (ks : List String) (f g : String → ℕ) :
    (ks.map fun t => f t + g t).sum = (ks.map f).sum + (ks.map g).sum := by
  induction ks with
  | nil => rfl
  | cons k ks ih =>
    simp only [List.map_cons, List.sum_cons, ih]
    omega

/-- The indicator sum over keys not containing the value is zero. -/
theorem sum_map_indicator_zero (ks : List String) (a : String) (h : a ∉ ks) :
    (ks.map fun t => if a == t then 1 else 0).sum = 0 := by
  induction ks with
  | nil => rfl
  | cons k ks ih =>
    have h1 : ¬a = k := fun hc => h (by simp [hc])
    have h2 : a ∉ ks := fun hc => h (List.mem_cons_of_mem _ hc)
    simp only [List.map_cons, List.sum_cons, beq_iff_eq, if_neg h1]
    simpa using ih h2

/-- The indicator sum over a duplicate-free key list containing the value is
exactly one: each record is counted under exactly one key. -/
theorem sum_map_indicator_one (ks : List String) (a : String) (hnd : ks.Nodup)
    (h : a ∈ ks) :
    (ks.map fun t => if a == t then 1 else 0).sum = 1 := by
  induction ks with
  | nil => cases h
  | cons k ks ih =>
    rcases List.mem_cons.mp h with h1 | h1
    · subst h1
      have hnot : a ∉ ks := (List.nodup_cons.mp hnd).1
      simp only [List.map_cons, List.sum_cons, beq_iff_eq, if_pos rfl]
      have hz := sum_map_indicator_zero ks a hnot
      simp only [beq_iff_eq] at hz
      simp [hz]
    · have h1k : ¬a = k := by
        intro hc
        subst hc
        exact (List.nodup_cons.mp hnd).1 h1
      simp only [List.map_cons, List.sum_cons, beq_iff_eq, if_neg h1k]
      have ho := ih (List.nodup_cons.mp hnd).2 h1
      simp only [beq_iff_eq] at ho
      simp [ho]

/-- Summing per-key `countP` over a duplicate-free key cover of a record list
counts every record exactly once. -/
theorem sum_countP_eq_length (l : List AirportRecord) (ks : List String)
    (hnd : ks.Nodup) (hall : ∀ r ∈ l, r.type ∈ ks) :
    (ks.map fun t => l.countP fun r => r.type == t).sum = l.length := by
  induction l with
  | nil => simp
  | cons r rs ih =>
    have hall' : ∀ x ∈ rs, x.type ∈ ks := fun x hx => hall x (List.mem_cons_of_mem _ hx)
    have hmem : r.type ∈ ks := hall r (List.mem_cons_self _ _)
    have hsplit : (ks.map fun t => (r :: rs).countP fun x => x.type == t)
        = ks.map fun t => (rs.countP fun x => x.type == t) +
            (if r.type == t then 1 else 0) := by
      apply List.map_congr_left
      intro t _ary
      rw [List.countP_cons]
    rw [hsplit, sum_map_add_pointwise, ih hall',
      sum_map_indicator_one ks r.type hnd hmem]
    simp [List.length_cons]

/-- A successful `seriesAstype` is exactly the absence of malformed cells. -/
theorem seriesAstype_eq_none_iff (df : List (Row RawElev)) :
    seriesAstype df = none ↔
      ∃ r ∈ df, ∃ s, r.elevation_ft = RawElev.malformed s := by
  induction df with
  | nil => simp [seriesAstype]
  | cons r rs ih =>
    cases he : r.elevation_ft with
    | malformed s =>
      refine iff_of_true ?_ ⟨r, List.mem_cons_self _ _, s, he⟩
      cases hs : seriesAstype rs <;> simp [seriesAstype, astypeFloat, he, hs]
    | num q =>
      cases hs : seriesAstype rs with
      | none =>
        refine iff_of_true (by simp [seriesAstype, astypeFloat, he, hs]) ?_
        obtain ⟨r', hr', s', he'⟩ := ih.mp hs
        exact ⟨r', List.mem_cons_of_mem _ hr', s', he'⟩
      | some rest =>
        have hl : seriesAstype (r :: rs) = some (setElev r (some q) :: rest) := by
          simp [seriesAstype, astypeFloat, he, hs]
        rw [hl]
        constructor
        · intro hc
          exact absurd hc (by simp)
        · rintro ⟨r', hr', s', he'⟩
          rcases List.mem_cons.mp hr' with h | h
          · subst h
            rw [he] at he'
            cases he'
          · exact absurd (ih.mpr ⟨r', h, s', he'⟩) (by simp [hs])
    | missing =>
      cases hs : seriesAstype rs with
      | none =>
        refine iff_of_true (by simp [seriesAstype, astypeFloat, he, hs]) ?_
        obtain ⟨r', hr', s', he'⟩ := ih.mp hs
        exact ⟨r', List.mem_cons_of_mem _ hr', s', he'⟩
      | some rest =>
        have hl : seriesAstype (r :: rs) = some (setElev r none :: rest) := by
          simp [seriesAstype, astypeFloat, he, hs]
        rw [hl]
        constructor
        · intro hc
          exact absurd hc (by simp)
        · rintro ⟨r', hr', s', he'⟩
          rcases List.mem_cons.mp hr' with h | h
          · subst h
            rw [he] at he'
            cases he'
          · exact absurd (ih.mpr ⟨r', h, s', he'⟩) (by simp [hs])

/-! ## Claims -/

/-- C1: the filter stage's output is a sublist (hence subset) of its input;
every output record has the selected `State`, is scheduled when
`show_scheduled` is set, clears the elevation threshold, has a type in the
multiselect, and non-null coordinates; an empty multiselect empties the
result; and with the flag off, `filter_scheduled` is the identity. -/
theorem filter_stage_correct (df : List AirportRecord) (state : String)
    (show_scheduled : Bool) (min_elevation : ℚ) (airport_types : List String) :
    (filteredView df state show_scheduled min_elevation airport_types).Sublist df ∧
    (∀ r ∈ filteredView df state show_scheduled min_elevation airport_types,
      r.State = some state ∧
      (show_scheduled = true → r.scheduled_service = "yes") ∧
      optGe r.elevation_ft min_elevation = true ∧
      r.type ∈ airport_types ∧
      r.latitude_deg.isSome = true ∧ r.longitude_deg.isSome = true) ∧
    (airport_types = [] →
      filteredView df state show_scheduled min_elevation airport_types = []) ∧
    filter_scheduled df false = df := by
  refine ⟨?_, ?_, ?_, rfl⟩
  · exact (List.filter_sublist _).trans ((List.filter_sublist _).trans
      ((List.filter_sublist _).trans ((filter_scheduled_sublist _ _).trans
        (List.filter_sublist _))))
  · intro r hr
    simp only [filteredView] at hr
    have h5 := List.mem_filter.mp hr
    have h4 := List.mem_filter.mp h5.1
    have h3 := List.mem_filter.mp h4.1
    have h2 := mem_filter_scheduled h3.1
    have h1 := List.mem_filter.mp h2.1
    have h52 : r.latitude_deg.isSome = true ∧ r.longitude_deg.isSome = true := by
      simpa using h5.2
    refine ⟨by simpa using h1.2, h2.2, h3.2, ?_, h52.1, h52.2⟩
    exact List.elem_iff.mp h4.2
  · intro h
    subst h
    simp [filteredView]

/-- C1 witness: on the concrete frame `dfSample` the surviving record
satisfies the active predicates. -/
theorem filter_stage_correct_witness :
    (mkRec "Alpha Field" "small_airport" "yes" (some 1200)).scheduled_service = "yes" ∧
    (mkRec "Alpha Field" "small_airport" "yes" (some 1200)).type ∈ ["small_airport"] ∧
    (mkRec "Alpha Field" "small_airport" "yes" (some 1200)).State = some "Massachusetts" := by
  have h := (filter_stage_correct dfSample "Massachusetts" true 0 ["small_airport"]).2.1
    (mkRec "Alpha Field" "small_airport" "yes" (some 1200)) (by decide)
  exact ⟨h.2.1 rfl, h.2.2.2.1, h.1⟩

/-- C3: `elevation_level` is total with values in {High, Medium, Low},
implements the inclusive thresholds 2000 and 1000, is monotone in elevation,
and maps the five sample elevations as the spec states. -/
theorem elevation_level_thresholds :
    (∀ r : AirportRecord, elevation_level r = "High" ∨
      elevation_level r = "Medium" ∨ elevation_level r = "Low") ∧
    (∀ r : AirportRecord, ∀ e : ℚ, r.elevation_ft = some e →
      (2000 ≤ e → elevation_level r = "High") ∧
      (1000 ≤ e → e < 2000 → elevation_level r = "Medium") ∧
      (e < 1000 → elevation_level r = "Low")) ∧
    (∀ r₁ r₂ : AirportRecord, ∀ e₁ e₂ : ℚ, r₁.elevation_ft = some e₁ →
      r₂.elevation_ft = some e₂ → e₁ ≤ e₂ →
      levelRank (elevation_level r₁) ≤ levelRank (elevation_level r₂)) ∧
    (∀ r : AirportRecord, r.elevation_ft = some 2500 → elevation_level r = "High") ∧
    (∀ r : AirportRecord, r.elevation_ft = some 2000 → elevation_level r = "High") ∧
    (∀ r : AirportRecord, r.elevation_ft = some 1500 → elevation_level r = "Medium") ∧
    (∀ r : AirportRecord, r.elevation_ft = some 1000 → elevation_level r = "Medium") ∧
    (∀ r : AirportRecord, r.elevation_ft = some 500 → elevation_level r = "Low") := by
  have hlevel : ∀ (r : AirportRecord) (e : ℚ), r.elevation_ft = some e →
      elevation_level r =
        if 2000 ≤ e then "High" else if 1000 ≤ e then "Medium" else "Low" := by
    intro r e he
    simp [elevation_level, optGe, he]
  refine ⟨?_, ?_, ?_, ?_, ?_, ?_, ?_, ?_⟩
  · intro r
    unfold elevation_level
    split
    · exact Or.inl rfl
    · split
      · exact Or.inr (Or.inl rfl)
      · exact Or.inr (Or.inr rfl)
  · intro r e he
    rw [hlevel r e he]
    refine ⟨fun h => by simp [h], fun h1 h2 => ?_, fun h => ?_⟩
    · rw [if_neg (by linarith), if_pos h1]
    · rw [if_neg (by linarith), if_neg (by linarith)]
  · intro r₁ r₂ e₁ e₂ h₁ h₂ hle
    rw [hlevel r₁ e₁ h₁, hlevel r₂ e₂ h₂]
    by_cases ha : (2000 : ℚ) ≤ e₁
    · rw [if_pos ha, if_pos (le_trans ha hle)]
    · by_cases hb : (1000 : ℚ) ≤ e₁
      · rw [if_neg ha, if_pos hb]
        by_cases hc : (2000 : ℚ) ≤ e₂
        · rw [if_pos hc]; decide
        · rw [if_neg hc, if_pos (le_trans hb hle)]
      · rw [if_neg ha, if_neg hb]
        split
        · decide
        · split <;> decide
  · intro r h; rw [hlevel r _ h]; norm_num
  · intro r h; rw [hlevel r _ h]; norm_num
  · intro r h; rw [hlevel r _ h]; norm_num
  · intro r h; rw [hlevel r _ h]; norm_num
  · intro r h; rw [hlevel r _ h]; norm_num

/-- C3 witness: the five boundary/sample elevations on concrete records. -/
theorem elevation_level_thresholds_witness :
    elevation_level (mkRec "S" "small_airport" "yes" (some 2500)) = "High" ∧
    elevation_level (mkRec "S" "small_airport" "yes" (some 2000)) = "High" ∧
    elevation_level (mkRec "S" "small_airport" "yes" (some 1500)) = "Medium" ∧
    elevation_level (mkRec "S" "small_airport" "yes" (some 1000)) = "Medium" ∧
    elevation_level (mkRec "S" "small_airport" "yes" (some 500)) = "Low" := by
  have h := elevation_level_thresholds
  exact ⟨h.2.2.2.1 _ rfl, h.2.2.2.2.1 _ rfl, h.2.2.2.2.2.1 _ rfl,
    h.2.2.2.2.2.2.1 _ rfl, h.2.2.2.2.2.2.2 _ rfl⟩

/-- C10: a record with a NaN elevation takes the `else` branch (both NaN
comparisons are false) and is categorized "Low" rather than left
uncategorized. -/
theorem elevation_level_nan_low (r : AirportRecord)
    (h : r.elevation_ft = none) : elevation_level r = "Low" := by
  simp [elevation_level, optGe, h]

/-- C10 witness: the concrete NaN-elevation record is categorized "Low". -/
theorem elevation_level_nan_low_witness : elevation_level noElevRow = "Low" :=
  elevation_level_nan_low noElevRow rfl

/-- C5 counterexample: on an empty filtered frame the stats block (final.py
lines 86–89) and the bar chart (110–111) still render — they are outside any
emptiness guard — so the empty-state message does NOT substitute for the
stat and chart rendering as the claim states; it only replaces the map. -/
theorem render_empty_still_shows_stats :
    (render ([] : List AirportRecord)).statsShown = true ∧
    (render ([] : List AirportRecord)).barChartShown = true ∧
    (render ([] : List AirportRecord)).emptyMessageShown = true := by
  decide

/-- C5 (amended): when the filtered set is empty, the "no matches"
empty-state message replaces only the map; the pie/line/box charts are
skipped; the stats and bar chart still render (their values are NaN/empty).
Every modelled pipeline stage is total on the empty set: the filter stage,
the stats, the group-by and the sort all return empty/none results rather
than raising. -/
theorem empty_set_display (state : String) (show_scheduled : Bool)
    (min_elevation : ℚ) (airport_types : List String) :
    render ([] : List AirportRecord) =
      { statsShown := true, barChartShown := true, pieShown := false,
        lineShown := false, boxShown := false, mapShown := false,
        emptyMessageShown := true } ∧
    filteredView [] state show_scheduled min_elevation airport_types = [] ∧
    elevation_stats [] = (none, none, none) ∧
    type_counts [] = [] ∧
    (∀ out, IsSortValuesOutput [] out → out = []) := by
  refine ⟨rfl, ?_, rfl, rfl, ?_⟩
  · cases show_scheduled <;> simp [filteredView, filter_scheduled]
  · intro out h
    exact h.1.eq_nil

/-- C5 witness: the amended display behaviour at a concrete parameter
assignment, with the sort hypothesis discharged on the empty output. -/
theorem empty_set_display_witness :
    render ([] : List AirportRecord) =
      { statsShown := true, barChartShown := true, pieShown := false,
        lineShown := false, boxShown := false, mapShown := false,
        emptyMessageShown := true } ∧
    filteredView [] "Maine" true 0 [] = [] ∧
    ([] : List AirportRecord) = [] := by
  have h := empty_set_display "Maine" true 0 []
  exact ⟨h.1, h.2.1, h.2.2.2.2 [] ⟨List.Perm.refl [], List.Pairwise.nil⟩⟩

/-- C7 counterexample: the multiselect options are computed from the base
frame `df` (final.py line 64), not from `filtered_all`: on a one-row base
frame whose only record is not scheduled, `filtered_all` is empty — the
claimed type enumeration drawn from it would be empty — yet "heliport" is
offered as an option. -/
theorem multiselect_options_not_from_filtered_all :
    airport_types_options [heliRow] ≠
      airport_types_options (filtered_all [heliRow]) ∧
    airport_types_options [heliRow] = ["heliport"] ∧
    filtered_all [heliRow] = [] := by
  refine ⟨?_, rfl, rfl⟩
  decide

/-- C7 (amended): `filtered_all` is built from the base frame by applying
only the scheduled-service predicate with the parameter left at its default
`true`, and is a sub-view of the base frame; the multiselect's option list,
however, is the distinct-type enumeration of the base frame `df` itself
(`filtered_all` is not consulted for it — it is unused downstream). -/
theorem filtered_all_only_scheduled (df : List AirportRecord) :
    filtered_all df = df.filter (fun r => r.scheduled_service == "yes") ∧
    (∀ r ∈ filtered_all df, r.scheduled_service = "yes") ∧
    (filtered_all df).Sublist df ∧
    (∀ t, t ∈ airport_types_options df ↔ ∃ r ∈ df, r.type = t) := by
  refine ⟨rfl, ?_, List.filter_sublist df, ?_⟩
  · intro r hr
    exact (mem_filter_scheduled hr).2 rfl
  · intro t
    rw [airport_types_options, mem_unique, List.mem_map]

/-- C7 witness: on the concrete base frame, the scheduled record's type is an
offered option, obtained through the amended characterization. -/
theorem filtered_all_only_scheduled_witness :
    "small_airport" ∈ airport_types_options dfSample :=
  ((filtered_all_only_scheduled dfSample).2.2.2 "small_airport").mpr
    ⟨mkRec "Alpha Field" "small_airport" "yes" (some 1200), by decide, rfl⟩

/-- C2 (code bug evidence): `sort_values(by='elevation_ft', ascending=False)`
is called with pandas' default `kind='quicksort'`, whose documented contract
guarantees only a key-ordered permutation, not stability.  On the concrete
two-row frame with tied elevations, both orders of the tied rows satisfy that
contract, so the contract does not determine the stable (original) tie order
the spec requires, nor idempotence of the realized order. -/
theorem sort_values_tie_order_underdetermined :
    IsSortValuesOutput [tieRowA, tieRowB] [tieRowA, tieRowB] ∧
    IsSortValuesOutput [tieRowA, tieRowB] [tieRowB, tieRowA] ∧
    [tieRowA, tieRowB] ≠ [tieRowB, tieRowA] := by
  simp only [IsSortValuesOutput]
  exact ⟨⟨by decide, by decide⟩, ⟨by decide, by decide⟩, by decide⟩

/-- C4 counterexample: a non-empty record set whose only elevation cell is
NaN.  pandas min/max/mean skip NaN, so all three results are NaN (`none`):
`elevation_stats` does not return a value triple satisfying
min ≤ mean ≤ max on this non-empty set, contrary to the claim's
"for every non-empty record set". -/
theorem elevation_stats_nonempty_all_nan :
    ([noElevRow] : List AirportRecord) ≠ [] ∧
    elevation_stats [noElevRow] = (none, none, none) :=
  ⟨by decide, rfl⟩

/-- C4 (amended): whenever the `elevation_ft` column has at least one
non-null value, `elevation_stats` returns some-valued min, max and mean with
min ≤ mean ≤ max; on the empty set every component is NaN (`none`), so the
caller must guard. -/
theorem elevation_stats_bounds (data : List AirportRecord) :
    (elevCol data ≠ [] →
      ∃ mn mx me, elevation_stats data = (some mn, some mx, some me) ∧
        mn ≤ me ∧ me ≤ mx) ∧
    elevation_stats ([] : List AirportRecord) = (none, none, none) := by
  refine ⟨?_, rfl⟩
  intro h
  obtain ⟨x, xs, hx⟩ := List.exists_cons_of_ne_nil h
  refine ⟨xs.foldl min x, xs.foldl max x,
    (x :: xs).sum / (((x :: xs).length : ℕ) : ℚ), ?_, ?_, ?_⟩
  · simp [elevation_stats, hx, seriesMin, seriesMax, seriesMean]
  · exact nonempty_min_le_mean x xs
  · exact nonempty_mean_le_max x xs

/-- C4 witness: on the concrete frame the hypothesis holds and the stats
satisfy the ordering. -/
theorem elevation_stats_bounds_witness :
    elevCol dfSample ≠ [] ∧
    ∃ mn mx me, elevation_stats dfSample = (some mn, some mx, some me) ∧
      mn ≤ me ∧ me ≤ mx :=
  ⟨by decide, (elevation_stats_bounds dfSample).1 (by decide)⟩

/-- C6: the group-by-type counts sum to the total record count (each record
is counted exactly once), the keys are duplicate-free and are exactly the
type values present in the input, and each entry's count is that type's
record count, in particular positive — no zero-count entry exists. -/
theorem type_counts_partition (data : List AirportRecord) :
    ((type_counts data).map Prod.snd).sum = data.length ∧
    ((type_counts data).map Prod.fst).Nodup ∧
    (∀ t, t ∈ (type_counts data).map Prod.fst ↔ ∃ r ∈ data, r.type = t) ∧
    (∀ p ∈ type_counts data,
      p.2 = data.countP (fun r => r.type == p.1) ∧ 0 < p.2) := by
  have hperm : (List.insertionSort (fun a b => strLe a b = true)
      (unique (data.map fun r => r.type))).Perm
      (unique (data.map fun r => r.type)) := List.perm_insertionSort _ _
  have hnd : (List.insertionSort (fun a b => strLe a b = true)
      (unique (data.map fun r => r.type))).Nodup :=
    hperm.symm.nodup (nodup_unique _)
  have hall : ∀ r ∈ data, r.type ∈ List.insertionSort (fun a b => strLe a b = true)
      (unique (data.map fun r => r.type)) := fun r hr =>
    hperm.mem_iff.mpr ((mem_unique _ _).mpr (List.mem_map.mpr ⟨r, hr, rfl⟩))
  have hkeys : (type_counts data).map Prod.fst
      = List.insertionSort (fun a b => strLe a b = true) (unique (data.map fun r => r.type)) := by
    rw [type_counts, List.map_map]
    have hid : (Prod.fst ∘ fun t => (t, data.countP fun r => r.type == t)) = id := rfl
    rw [hid, List.map_id]
  have hsnd : (type_counts data).map Prod.snd
      = (List.insertionSort (fun a b => strLe a b = true)
          (unique (data.map fun r => r.type))).map
          fun t => data.countP fun r => r.type == t := by
    rw [type_counts, List.map_map]
    rfl
  refine ⟨?_, ?_, ?_, ?_⟩
  · rw [hsnd]
    exact sum_countP_eq_length data _ hnd hall
  · rw [hkeys]
    exact hnd
  · intro t
    rw [hkeys, hperm.mem_iff, mem_unique, List.mem_map]
  · intro p hp
    obtain ⟨t, ht, rfl⟩ := List.mem_map.mp hp
    refine ⟨rfl, ?_⟩
    have htm : t ∈ data.map fun r => r.type :=
      (mem_unique _ _).mp (hperm.mem_iff.mp ht)
    obtain ⟨r, hr, hrt⟩ := List.mem_map.mp htm
    exact List.countP_pos_iff.mpr ⟨r, hr, by simp [hrt]⟩

/-- C6 witness: the concrete frame's counts, keys in pandas' sorted group
order, summing to the row count. -/
theorem type_counts_partition_witness :
    ((type_counts dfSample).map Prod.snd).sum = dfSample.length ∧
    type_counts dfSample = [("heliport", 1), ("small_airport", 1)] :=
  ⟨(type_counts_partition dfSample).1, by decide⟩

/-- C8: every record surviving the loader has non-null latitude, longitude,
region code and mapped `State`; every code in the `state_names` table maps
to a non-null display name; and every surviving record's region code is one
of the enumerated supported codes, i.e. rows with unsupported codes are
excluded entirely. -/
theorem load_invariants {ε : Type} (rows : List (Row ε)) :
    (∀ r ∈ load rows, r.latitude_deg.isSome = true ∧ r.longitude_deg.isSome = true ∧
      r.iso_region.isSome = true ∧ r.State.isSome = true) ∧
    (∀ code ∈ state_names.map Prod.fst, (state_names.lookup code).isSome = true) ∧
    (∀ r ∈ load rows, ∃ c, r.iso_region = some c ∧ c ∈ state_names.map Prod.fst) := by
  refine ⟨?_, by decide, ?_⟩
  · intro r hr
    have h1 := List.mem_filter.mp hr
    obtain ⟨r₀, hr₀, rfl⟩ := List.mem_map.mp h1.1
    have h2 := List.mem_filter.mp hr₀
    have h3 : (r₀.latitude_deg.isSome = true ∧ r₀.longitude_deg.isSome = true) ∧
        r₀.iso_region.isSome = true := by
      simpa using h2.2
    exact ⟨h3.1.1, h3.1.2, h3.2, h1.2⟩
  · intro r hr
    have h1 := List.mem_filter.mp hr
    obtain ⟨r₀, hr₀, rfl⟩ := List.mem_map.mp h1.1
    have hS : (r₀.iso_region.bind fun c => state_names.lookup c).isSome = true := h1.2
    obtain ⟨c, hc⟩ : ∃ c, r₀.iso_region = some c := by
      cases hreg : r₀.iso_region with
      | none =>
        rw [hreg] at hS
        simp at hS
      | some c => exact ⟨c, rfl⟩
    rw [hc] at hS
    simp only [Option.some_bind] at hS
    exact ⟨c, hc, lookup_isSome_mem hS⟩

/-- C8 witness: on the concrete raw frame only the supported-region,
fully-located row survives, with its invariants established through the
theorem. -/
theorem load_invariants_witness :
    load rawRows = [loadedME] ∧
    loadedME.latitude_deg.isSome = true ∧ loadedME.State.isSome = true := by
  have h := (load_invariants rawRows).1 loadedME (by decide)
  exact ⟨by decide, h.1, h.2.2.2⟩

/-- C9: a malformed elevation cell anywhere in the frame makes the whole
`astype(float)` call raise; the except-branch then reports the error exactly
once — not once per offending row — and the frame is left in its prior,
un-coerced state (no partial conversion survives, because the exception
precedes the column assignment).  With no malformed cell the conversion
succeeds with no error report, and in either case at most one error is
emitted and the script continues. -/
theorem coerce_elevation_atomic (df : List (Row RawElev)) :
    ((∃ r ∈ df, ∃ s, r.elevation_ft = RawElev.malformed s) →
      coerce_elevation df = (Sum.inl df, 1)) ∧
    ((∀ r ∈ df, ∀ s, r.elevation_ft ≠ RawElev.malformed s) →
      ∃ out, coerce_elevation df = (Sum.inr out, 0)) ∧
    (coerce_elevation df).2 ≤ 1 := by
  refine ⟨?_, ?_, ?_⟩
  · intro h
    have hn : seriesAstype df = none := (seriesAstype_eq_none_iff df).mpr h
    simp [coerce_elevation, hn]
  · intro h
    cases hs : seriesAstype df with
    | none =>
      obtain ⟨r, hr, s, hsr⟩ := (seriesAstype_eq_none_iff df).mp hs
      exact absurd hsr (h r hr s)
    | some out =>
      exact ⟨out, by simp [coerce_elevation, hs]⟩
  · unfold coerce_elevation
    cases seriesAstype df <;> simp

/-- C9 witness: a frame with two malformed cells is returned unchanged with
exactly one reported error. -/
theorem coerce_elevation_atomic_witness :
    coerce_elevation rawBad = (Sum.inl rawBad, 1) :=
  (coerce_elevation_atomic rawBad).1
    ⟨rawRow (some "US-ME") (some 44) (some (-69)) (RawElev.malformed "abc"),
     by decide, "abc", rfl⟩

end Airports
